import Mathlib

/-!
Verification of the `async-news-filter` repository (src/main.py,
src/time_measurement.py, src/adapters/__init__.py).

The Python program fetches news articles, strips markup through per-site
"sanitizer" adapters, tokenizes the plain text with an external
morphological analyzer under a deadline, and scores the "jaundice rate" of
each article, running one pipeline per URL concurrently and collecting one
structured result record per URL.

Shallow embedding conventions:
* Python exceptions become the inductive `Exc`; a function that may let an
  exception escape returns `Except Exc _`.
* The observable behaviour of the external collaborators of one
  `process_article` call (the HTTP fetch, the sanitizer capability, the
  external lemmatizer) is a record `ArticleRun`; time is modelled in
  abstract units as the durations those external steps take.
* The single-threaded cooperative scheduler means a deadline can only fire
  while the task is suspended at an `await`; inside the outer
  `async with timeout(resp_timeout)` block of `process_article` the only
  await point is the fetch.
* The iteration order of the `done` set produced by `asyncio.wait` is
  arbitrary; it enters the model as an explicit index list `order`.
-/

/-- Model of the Python exception classes that reach `process_article`'s
`try` statement.  Each constructor stands for one concrete class (or, for
`clientConnectionError`, for any instance of that class or its
subclasses); `other` stands for any unmodeled exception. -/
inductive Exc where
  /-- `aiohttp.ClientConnectionError` (or a subclass of it). -/
  | clientConnectionError
  /-- `aiohttp.ClientResponseError`, raised by `response.raise_for_status()`
  on a non-2xx HTTP status.  In aiohttp's hierarchy it is a sibling of
  `ClientConnectionError` (both derive from `ClientError`), not a subclass. -/
  | clientResponseError
  /-- A bare `aiohttp.ClientError`, the common base class (raised by the
  repository's own test `test_fetch_client_error`). -/
  | clientError
  /-- `adapters.ArticleNotFound`, carrying its message (`str(err)`). -/
  | articleNotFound (msg : String)
  /-- `asyncio.TimeoutError`, produced by `async_timeout.timeout` when a
  deadline cancels the block. -/
  | timeoutError
  /-- Any other (unmodeled) exception. -/
  | other (msg : String)
deriving DecidableEq, Repr

instance {ε α : Type} [DecidableEq ε] [DecidableEq α] :
    DecidableEq (Except ε α) := fun a b =>
  match a, b with
  | .error x, .error y =>
    if h : x = y then .isTrue (congrArg Except.error h)
    else .isFalse (fun hh => h (Except.error.inj hh))
  | .ok x, .ok y =>
    if h : x = y then .isTrue (congrArg Except.ok h)
    else .isFalse (fun hh => h (Except.ok.inj hh))
  | .error _, .ok _ => .isFalse (fun hh => Except.noConfusion hh)
  | .ok _, .error _ => .isFalse (fun hh => Except.noConfusion hh)

/-- `isinstance(e, aiohttp.ClientConnectionError)`: true only for the
`ClientConnectionError` subtree; `ClientResponseError` and bare
`ClientError` are not instances of it. -/
def Exc.isClientConnectionError : Exc → Bool
  | .clientConnectionError => true
  | _ => false

/-- `isinstance(e, adapters.ArticleNotFound)`. -/
def Exc.isArticleNotFound : Exc → Bool
  | .articleNotFound _ => true
  | _ => false

/-- `isinstance(e, asyncio.TimeoutError)`. -/
def Exc.isTimeoutError : Exc → Bool
  | .timeoutError => true
  | _ => false

/-- `str(err)` for the exceptions whose message the program reads. -/
def Exc.message : Exc → String
  | .articleNotFound msg => msg
  | .other msg => msg
  | _ => ""

/-- src/main.py lines 37-41: `class ProcessingStatus(Enum)`. -/
inductive ProcessingStatus where
  | OK
  | FETCH_ERROR
  | PARSING_ERROR
  | TIMEOUT
deriving DecidableEq, Repr

/-- `ProcessingStatus.X.value`: the string stored in the result dict. -/
def ProcessingStatus.value : ProcessingStatus → String
  | .OK => "OK"
  | .FETCH_ERROR => "FETCH_ERROR"
  | .PARSING_ERROR => "PARSING_ERROR"
  | .TIMEOUT => "TIMEOUT"

/-- The `article_info` dict built by `process_article` (src/main.py lines
83-90): every field starts as `None` and is updated per branch.  `score`
is a Python float, modelled as `ℚ`; the two duration fields are abstract
time units. -/
structure ArticleInfo where
  url : String
  title : Option String
  status : Option String
  score : Option ℚ
  words_count : Option Nat
  exec_time : Option Nat
deriving DecidableEq, Repr

/-- The fully-`None` record (used as an out-of-range default when the model
indexes result lists). -/
def blankInfo : ArticleInfo :=
  { url := "", title := none, status := none, score := none,
    words_count := none, exec_time := none }

/-- The two sanitizer capabilities registered in
src/adapters/__init__.py; their implementations (adapters/inosmi_ru.py,
adapters/dvmn_org.py) are external to the verified core, so only their
identity is modelled. -/
inductive SanitizerId where
  | inosmi_ru
  | dvmn_org
deriving DecidableEq, Repr

/-- src/adapters/__init__.py lines 7-10: the `SANITIZERS` dict. -/
def SANITIZERS : List (String × SanitizerId) :=
  [("inosmi_ru", SanitizerId.inosmi_ru), ("dvmn_org", SanitizerId.dvmn_org)]

/-- `SANITIZERS.get(key)`: dictionary lookup. -/
def sanitizersGet (key : String) : Option SanitizerId :=
  (SANITIZERS.find? (fun p => p.1 == key)).map (fun p => p.2)

/-- Auxiliary for `splitOnChar`, mirroring Python's `str.split(sep)` for a
one-character separator: `acc` holds the current chunk reversed. -/
def splitOnCharAux (sep : Char) : List Char → List Char → List (List Char)
  | [], acc => [acc.reverse]
  | x :: xs, acc =>
    if x = sep then acc.reverse :: splitOnCharAux sep xs []
    else splitOnCharAux sep xs (x :: acc)

/-- Python `str.split(sep)` for a one-character separator (so
`''.split('.') == ['']` and `'a.b'.split('.') == ['a','b']`). -/
def splitOnChar (sep : Char) (l : List Char) : List (List Char) :=
  splitOnCharAux sep l []

/-- Python `sep.join(parts)` for a one-character separator. -/
def intercalateChar (sep : Char) : List (List Char) → List Char
  | [] => []
  | [x] => x
  | x :: y :: rest => x ++ sep :: intercalateChar sep (y :: rest)

/-- Scans for the first `//` of a URL and returns what follows it, the way
`urllib.parse.urlparse` locates the network-location component. -/
def afterSchemeSep : List Char → Option (List Char)
  | [] => none
  | '/' :: '/' :: rest => some rest
  | _ :: rest => afterSchemeSep rest

/-- `urllib.parse.urlparse(url).netloc`: the network-location component is
the substring after the first `//` and before the next `/`, `?` or `#`;
a URL without `//` has an empty netloc. -/
def netloc (url : String) : String :=
  match afterSchemeSep url.toList with
  | some rest =>
    (rest.takeWhile (fun c => c ≠ '/' && c ≠ '?' && c ≠ '#')).asString
  | none => ""

/-- src/main.py lines 44-52: `get_sanitizer(url)`.  Derives the registry
key by `'_'.join(domain_name.split('.'))` and raises
`ArticleNotFound(f'Статья на {domain_name}')` when the key is absent. -/
def get_sanitizer (url : String) : Except Exc SanitizerId :=
  let domain_name := netloc url
  let sanitizer_name :=
    (intercalateChar '_' (splitOnChar '.' domain_name.toList)).asString
  match sanitizersGet sanitizer_name with
  | some sanitizer => .ok sanitizer
  | none => .error (.articleNotFound ("Статья на " ++ domain_name))

/-- Modelled from the spec: the repository imports `calculate_jaundice_rate`
from `text_tools`, whose source file is not under src/ (only its tests,
src/tests/test_text_tools.py, and its caller src/main.py are).  Spec §4.1:
rate = 100 × (count of tokens of `article_words` that are members of
`charged_words`) / max(1, len(article_words)); the empty word list returns
`0.0` exactly.  The Python float is modelled as `ℚ`. -/
def calculate_jaundice_rate (article_words charged_words : List String) : ℚ :=
  if article_words.isEmpty then 0
  else
    100 * (article_words.countP (fun w => charged_words.contains w) : ℚ) /
      (article_words.length : ℚ)

/-- src/time_measurement.py lines 10-22: `measure_exec_time(morph, text)`
runs `split_by_words` under `async with timeout(to)` (the call site uses
the default `to=3`), catches `asyncio.TimeoutError`, and yields the triple
`(end_time, article_words, error)`.  The external lemmatizer is modelled by
what it would return (`words`) and how long it would take (`duration`), per
spec §4.3 (it returns tokens or is cancelled by the deadline); when the
deadline fires first the measured elapsed time equals the deadline. -/
def measure_exec_time (duration : Nat) (words : List String) (deadline : Nat) :
    Nat × Option (List String) × Option Exc :=
  if deadline ≤ duration then (deadline, none, some .timeoutError)
  else (duration, some words, none)

/-- The observable behaviour of the external collaborators during one
`process_article(session, morph, charged_words, url)` call: the fetch
(how long the await takes and whether it yields HTML or raises), the
sanitizer capability's output `(text, title)` and its synchronous running
time, and the external lemmatizer's tokens and running time. -/
structure ArticleRun where
  /-- Abstract time the `await fetch(session, url)` suspension takes before
  completing or raising. -/
  fetchDuration : Nat
  /-- What the fetch yields when it completes: the page text, or a raised
  exception. -/
  fetchOutcome : Except Exc String
  /-- Synchronous time `adapter(article_html, plaintext=True)` takes; the
  adapter runs after the timed block, so no deadline can interrupt it. -/
  applyDuration : Nat
  /-- `text` returned by the sanitizer capability. -/
  sanitizedText : String
  /-- `title` returned by the sanitizer capability. -/
  sanitizedTitle : String
  /-- Abstract time `split_by_words(morph, text)` would take. -/
  tokenizeDuration : Nat
  /-- Tokens `split_by_words` would return. -/
  tokens : List String
deriving Repr

/-- The `try` body of `process_article` (src/main.py lines 93-96):
`async with timeout(resp_timeout): article_html = await fetch(session, url);
adapter = get_sanitizer(url)`.  The deadline firing while the fetch await
is pending cancels the block into `asyncio.TimeoutError`; otherwise the
fetch completes (with the page or a raised exception) and the sanitizer is
resolved synchronously. -/
def fetch_and_resolve (run : ArticleRun) (url : String) (resp_timeout : Nat) :
    Except Exc String :=
  if resp_timeout ≤ run.fetchDuration then .error .timeoutError
  else
    match run.fetchOutcome with
    | .error e => .error e
    | .ok article_html =>
      match get_sanitizer url with
      | .error e => .error e
      | .ok _adapter => .ok article_html

/-- src/main.py lines 82-133: `process_article`.  The except clauses are
tried in source order (`aiohttp.ClientConnectionError`,
`adapters.ArticleNotFound`, `asyncio.TimeoutError`) against the modelled
exception hierarchy; an exception matching none of them escapes the
function (`Except.error`).  The `else` branch applies the sanitizer
(outside the deadline, its output taken from the run) and runs the timed
tokenizer with its independent inner deadline of 3 (the Python default
`to=3` of `measure_exec_time`); `exec_time` is set in both tokenizer
branches, `score`/`words_count` only on full success. -/
def process_article (run : ArticleRun) (charged_words : List String)
    (url : String) (resp_timeout : Nat) : Except Exc ArticleInfo :=
  match fetch_and_resolve run url resp_timeout with
  | .error .clientConnectionError =>
    .ok { url := url, title := some "URL does not exist",
          status := some ProcessingStatus.FETCH_ERROR.value,
          score := none, words_count := none, exec_time := none }
  | .error (.articleNotFound msg) =>
    .ok { url := url, title := some (Exc.articleNotFound msg).message,
          status := some ProcessingStatus.PARSING_ERROR.value,
          score := none, words_count := none, exec_time := none }
  | .error .timeoutError =>
    .ok { url := url, title := some "Timeout Error",
          status := some ProcessingStatus.TIMEOUT.value,
          score := none, words_count := none, exec_time := none }
  | .error e => .error e
  | .ok _article_html =>
    match measure_exec_time run.tokenizeDuration run.tokens 3 with
    | (exec_time, _, some _) =>
      .ok { url := url, title := some run.sanitizedTitle,
            status := some ProcessingStatus.TIMEOUT.value,
            score := none, words_count := none, exec_time := some exec_time }
    | (exec_time, ws, none) =>
      .ok { url := url, title := some run.sanitizedTitle,
            status := some ProcessingStatus.OK.value,
            score := some (calculate_jaundice_rate (ws.getD []) charged_words),
            words_count := some (ws.getD []).length,
            exec_time := some exec_time }

/-- Exceptions a call to `get_articles_analysis_results` can raise. -/
inductive BatchExc where
  /-- A single child exception, re-raised by `create_handy_nursery`
  (src/main.py lines 55-63) when the `aionursery.MultiError` holds exactly
  one exception. -/
  | single (e : Exc)
  /-- `aionursery.MultiError` carrying several child exceptions. -/
  | multi (es : List Exc)
  /-- The `ValueError` raised by `asyncio.wait` on an empty set of
  awaitables. -/
  | valueError
deriving DecidableEq, Repr

/-- The outcome of each task spawned by the orchestrator, in spawn (input)
order: `nursery.start_soon(process_article(session, morph, charged_words,
url))`, with `resp_timeout` left at its Python default of 5. -/
def taskResults (world : String → ArticleRun) (charged_words : List String)
    (urls : List String) : List (Except Exc ArticleInfo) :=
  urls.map (fun url => process_article (world url) charged_words url 5)

/-- The exceptions that escaped the spawned pipelines, in spawn order; the
nursery collects exactly these into a `MultiError` when the list is
nonempty. -/
def taskErrors (world : String → ArticleRun) (charged_words : List String)
    (urls : List String) : List Exc :=
  (taskResults world charged_words urls).filterMap
    (fun r => match r with | .error e => some e | .ok _ => none)

/-- src/main.py lines 136-154: `get_articles_analysis_results`.
Semantics of the concurrency primitives, per their libraries:
* `aionursery.Nursery` waits for all children on exit of the `async with`
  block; if some children raised, it raises a `MultiError` of those
  exceptions, which `create_handy_nursery` unwraps when it holds exactly
  one — in that case `asyncio.wait` is never reached and no result list is
  returned;
* on the no-error path, `asyncio.wait(tasks)` raises `ValueError` when
  `tasks` is empty, and otherwise returns the `done` set of all completed
  tasks, iterated in an arbitrary order — modelled by the index list
  `order` (the theorems quantify over all permutations of the indices). -/
def get_articles_analysis_results (world : String → ArticleRun)
    (charged_words : List String) (urls : List String) (order : List Nat) :
    Except BatchExc (List ArticleInfo) :=
  match taskErrors world charged_words urls with
  | [] =>
    if urls.isEmpty then .error .valueError
    else
      let infos := (taskResults world charged_words urls).filterMap Except.toOption
      .ok (order.map (fun i => infos.getD i blankInfo))
  | [e] => .error (.single e)
  | e :: e2 :: rest => .error (.multi (e :: e2 :: rest))

/-- A pipeline run whose external steps all complete immediately: the fetch
returns an empty page at time 0 and the tokenizer returns no tokens. -/
def trivialRun : ArticleRun :=
  { fetchDuration := 0, fetchOutcome := .ok "", applyDuration := 0,
    sanitizedText := "", sanitizedTitle := "", tokenizeDuration := 0,
    tokens := [] }

/-- A world in which every URL gets the trivial run. -/
def trivialWorld : String → ArticleRun := fun _ => trivialRun

example : netloc "https://inosmi.ru/social/20191004/245951541.html" = "inosmi.ru" := rfl

example : get_sanitizer "https://inosmi.ru/social/20191004/245951541.html" =
    .ok SanitizerId.inosmi_ru := rfl

example : get_sanitizer "https://lenta.ru/news/2019/10/15/real/" =
    .error (.articleNotFound "Статья на lenta.ru") := rfl

-- Mirrors src/tests/test_process_article.py::test_nonexistent_adapter.
example :
    process_article trivialRun [] "https://example.ru" 5 =
      .ok { url := "https://example.ru", title := some "Статья на example.ru",
            status := some "PARSING_ERROR", score := none, words_count := none,
            exec_time := none } := rfl

-- Mirrors src/tests/test_process_article.py::test_fetch_timeout_error
-- (the mocked fetch sleeps 6 > resp_timeout = 5).
example :
    process_article { trivialRun with fetchDuration := 6 } []
      "https://inosmi.ru/" 5 =
      .ok { url := "https://inosmi.ru/", title := some "Timeout Error",
            status := some "TIMEOUT", score := none, words_count := none,
            exec_time := none } := rfl

-- A connection failure collapses to FETCH_ERROR.
example :
    process_article { trivialRun with fetchOutcome := .error .clientConnectionError }
      [] "https://url_does_not_exist.ru" 5 =
      .ok { url := "https://url_does_not_exist.ru",
            title := some "URL does not exist", status := some "FETCH_ERROR",
            score := none, words_count := none, exec_time := none } := rfl

-- A successful end-to-end run on a registered site.
example :
    process_article
      { trivialRun with sanitizedTitle := "Test article title",
                        tokenizeDuration := 1,
                        tokens := ["удивительно", "это", "стать", "начало"] }
      ["это"] "https://inosmi.ru" 5 =
      .ok { url := "https://inosmi.ru", title := some "Test article title",
            status := some "OK",
            score := some (calculate_jaundice_rate
              ["удивительно", "это", "стать", "начало"] ["это"]),
            words_count := some 4, exec_time := some 1 } := rfl

-- The score of that run: one charged word out of four tokens.
example :
    calculate_jaundice_rate ["удивительно", "это", "стать", "начало"] ["это"] =
      25 := by
  simp +decide only [calculate_jaundice_rate, List.countP_cons, List.countP_nil,
    List.isEmpty, List.contains_cons]
  norm_num

-- The batch raises on an empty URL list (asyncio.wait rejects an empty set).
example :
    get_articles_analysis_results trivialWorld [] [] [] = .error .valueError := rfl

-- A two-URL batch, completion order reversed.
example :
    get_articles_analysis_results trivialWorld [] ["https://a.ru", "https://b.ru"]
      [1, 0] =
      .ok [{ url := "https://b.ru", title := some "Статья на b.ru",
             status := some "PARSING_ERROR", score := none, words_count := none,
             exec_time := none },
           { url := "https://a.ru", title := some "Статья на a.ru",
             status := some "PARSING_ERROR", score := none, words_count := none,
             exec_time := none }] := rfl

/-! Helper lemmas. -/

/-- Every record `process_article` returns carries the URL it was called
with (the `url` key is set once at dict creation and never updated). -/
theorem process_article_url_eq (run : ArticleRun) (cw : List String)
    (url : String) (t : Nat) (info : ArticleInfo)
    (h : process_article run cw url t = .ok info) : info.url = url := by
  unfold process_article at h
  split at h <;> (try split at h) <;> (cases h <;> rfl)

/-- If every spawned pipeline returns normally, no exception reaches the
nursery. -/
theorem taskErrors_eq_nil (world : String → ArticleRun)
    (charged_words : List String) : ∀ urls : List String,
    (∀ u ∈ urls, ∃ info, process_article (world u) charged_words u 5 = .ok info) →
    taskErrors world charged_words urls = [] := by
  intro urls
  induction urls with
  | nil => intro _; rfl
  | cons u us ih =>
    intro h
    obtain ⟨info, hinfo⟩ := h u (List.mem_cons_self u us)
    have hrest := ih (fun v hv => h v (List.mem_cons_of_mem u hv))
    simp only [taskErrors, taskResults, List.map_cons, List.filterMap_cons,
      hinfo] at hrest ⊢
    exact hrest

/-- On an all-normal batch, the collected records' `url` fields are exactly
the input URLs, in spawn order. -/
theorem okInfos_map_url (world : String → ArticleRun)
    (charged_words : List String) : ∀ urls : List String,
    (∀ u ∈ urls, ∃ info, process_article (world u) charged_words u 5 = .ok info) →
    ((taskResults world charged_words urls).filterMap Except.toOption).map
      (fun r => r.url) = urls := by
  intro urls
  induction urls with
  | nil => intro _; rfl
  | cons u us ih =>
    intro h
    obtain ⟨info, hinfo⟩ := h u (List.mem_cons_self u us)
    have hu : info.url = u := process_article_url_eq _ _ _ _ _ hinfo
    have hrest := ih (fun v hv => h v (List.mem_cons_of_mem u hv))
    simp only [taskResults, List.map_cons, List.filterMap_cons, hinfo,
      Except.toOption, List.map_cons] at hrest ⊢
    rw [hu]
    exact congrArg (u :: ·) hrest

/-- Reading a list back at the indices `0, …, length-1` reproduces it. -/
theorem map_getD_range (d : ArticleInfo) : ∀ l : List ArticleInfo,
    (List.range l.length).map (fun i => l.getD i d) = l := by
  intro l
  induction l with
  | nil => rfl
  | cons a t ih =>
    have hc : ((fun i => (a :: t).getD i d) ∘ Nat.succ) = fun i => t.getD i d := by
      funext i
      simp [Function.comp, List.getD_cons_succ]
    simp only [List.length_cons, List.range_succ_eq_map, List.map_cons,
      List.map_map, List.getD_cons_zero, hc, ih]

/-- Reading a list at a permutation of its index range permutes it. -/
theorem order_map_getD_perm (d : ArticleInfo) (l : List ArticleInfo)
    (order : List Nat) (h : order.Perm (List.range l.length)) :
    (order.map (fun i => l.getD i d)).Perm l := by
  have hp := h.map (fun i => l.getD i d)
  rw [map_getD_range d l] at hp
  exact hp

/-! Claim theorems. -/

/-- Claim C3: every `ArticleResult` that `process_article` returns has a
`status` equal to exactly one of OK, FETCH_ERROR, PARSING_ERROR, TIMEOUT
(never null), and its `score` and `words_count` are non-null if and only if
the status is OK. -/
theorem process_article_status_invariant (run : ArticleRun)
    (cw : List String) (url : String) (t : Nat) (info : ArticleInfo)
    (h : process_article run cw url t = .ok info) :
    (info.status = some "OK" ∨ info.status = some "FETCH_ERROR" ∨
      info.status = some "PARSING_ERROR" ∨ info.status = some "TIMEOUT") ∧
    ((info.score ≠ none ∧ info.words_count ≠ none) ↔ info.status = some "OK") := by
  unfold process_article at h
  split at h <;> (try split at h) <;>
    (cases h <;> simp [ProcessingStatus.value])

/-- A run that succeeds end to end: the fetch returns instantly and the
tokenizer produces the four tokens of the repository's
`test_split_by_words` fixture within the deadline. -/
def okRun : ArticleRun :=
  { trivialRun with sanitizedTitle := "Test article title",
                    tokenizeDuration := 1,
                    tokens := ["удивительно", "это", "стать", "начало"] }

/-- The record returned by `process_article okRun ["это"] "https://inosmi.ru" 5`. -/
def okInfo : ArticleInfo :=
  { url := "https://inosmi.ru", title := some "Test article title",
    status := some "OK",
    score := some (calculate_jaundice_rate
      ["удивительно", "это", "стать", "начало"] ["это"]),
    words_count := some 4, exec_time := some 1 }

/-- Witness for claim C3 at a concrete successful run. -/
theorem process_article_status_invariant_witness :
    (okInfo.status = some "OK" ∨ okInfo.status = some "FETCH_ERROR" ∨
      okInfo.status = some "PARSING_ERROR" ∨ okInfo.status = some "TIMEOUT") ∧
    ((okInfo.score ≠ none ∧ okInfo.words_count ≠ none) ↔
      okInfo.status = some "OK") :=
  process_article_status_invariant okRun ["это"] "https://inosmi.ru" 5 okInfo rfl

/-- A fetch that immediately raises `aiohttp.ClientResponseError` — what
`response.raise_for_status()` does on a non-2xx HTTP status. -/
def httpErrorRun : ArticleRun :=
  { trivialRun with fetchOutcome := .error .clientResponseError }

/-- A fetch that immediately raises a bare `aiohttp.ClientError` — the
mock of the repository's own test `test_fetch_client_error`. -/
def clientErrorRun : ArticleRun :=
  { trivialRun with fetchOutcome := .error .clientError }

/-- Claim C4 (code bug): `process_article` catches only
`aiohttp.ClientConnectionError`, so the `ClientResponseError` raised by
`response.raise_for_status()` on a non-2xx response escapes the pipeline
instead of being converted to FETCH_ERROR / "URL does not exist"; the bare
`ClientError` raised by the repository's own test
`test_fetch_client_error` (which asserts a FETCH_ERROR record) escapes the
same way, so the code contradicts its own test. -/
theorem raise_for_status_escapes :
    process_article httpErrorRun []
      "https://inosmi.ru/social/20191004/245951541.html" 5 =
      .error .clientResponseError ∧
    process_article clientErrorRun [] "https://url_does_not_exist.ru" 5 =
      .error .clientError ∧
    Exc.clientResponseError.isClientConnectionError = false ∧
    Exc.clientError.isClientConnectionError = false :=
  ⟨rfl, rfl, rfl, rfl⟩

/-- Claim C5: when the fetch completes before the outer deadline and the
sanitizer resolves, the result is decided by the timed tokenizer: inner
deadline (3) elapsed → TIMEOUT with the sanitized title, the measured
elapsed time, and null score/words_count; otherwise → OK with
score = calculate_jaundice_rate(tokens, charged_words),
words_count = len(tokens), the elapsed time, and the sanitized title. -/
theorem process_article_tokenize_branches (run : ArticleRun)
    (cw : List String) (url : String) (t : Nat) (html : String)
    (s : SanitizerId) (hfast : run.fetchDuration < t)
    (hfetch : run.fetchOutcome = .ok html)
    (hsan : get_sanitizer url = .ok s) :
    process_article run cw url t =
      (if 3 ≤ run.tokenizeDuration then
        .ok { url := url, title := some run.sanitizedTitle,
              status := some "TIMEOUT", score := none, words_count := none,
              exec_time := some 3 }
      else
        .ok { url := url, title := some run.sanitizedTitle,
              status := some "OK",
              score := some (calculate_jaundice_rate run.tokens cw),
              words_count := some run.tokens.length,
              exec_time := some run.tokenizeDuration }) := by
  have hnot : ¬ t ≤ run.fetchDuration := Nat.not_le.mpr hfast
  by_cases hc : 3 ≤ run.tokenizeDuration <;>
    simp [process_article, fetch_and_resolve, measure_exec_time, hfetch,
      hsan, hnot, hc, ProcessingStatus.value]

/-- Witness for claim C5 at a concrete run (tokenizer finishes in time). -/
theorem process_article_tokenize_branches_witness :
    process_article okRun ["это"] "https://inosmi.ru" 5 =
      (if 3 ≤ okRun.tokenizeDuration then
        .ok { url := "https://inosmi.ru", title := some okRun.sanitizedTitle,
              status := some "TIMEOUT", score := none, words_count := none,
              exec_time := some 3 }
      else
        .ok { url := "https://inosmi.ru", title := some okRun.sanitizedTitle,
              status := some "OK",
              score := some (calculate_jaundice_rate okRun.tokens ["это"]),
              words_count := some okRun.tokens.length,
              exec_time := some okRun.tokenizeDuration }) :=
  process_article_tokenize_branches okRun ["это"] "https://inosmi.ru" 5 ""
    SanitizerId.inosmi_ru (by decide) rfl rfl

/-- Claim C6 (amended): the outer `resp_timeout` deadline spans the timed
block — the fetch and the sanitizer *resolution*; the only await point
there is the fetch, so the deadline expiring manifests while the fetch is
pending, and then `process_article` returns TIMEOUT / "Timeout Error" with
null score, words_count and exec_time.  Sanitizer *application* runs after
the timed block and is not covered (see the counterexample). -/
theorem process_article_outer_timeout (run : ArticleRun) (cw : List String)
    (url : String) (t : Nat) (h : t ≤ run.fetchDuration) :
    process_article run cw url t =
      .ok { url := url, title := some "Timeout Error",
            status := some "TIMEOUT", score := none, words_count := none,
            exec_time := none } := by
  simp [process_article, fetch_and_resolve, h, ProcessingStatus.value]

/-- A fetch that outlives the 5-unit deadline. -/
def slowFetchRun : ArticleRun := { trivialRun with fetchDuration := 6 }

/-- Witness for claim C6's amended theorem. -/
theorem process_article_outer_timeout_witness :
    process_article slowFetchRun [] "https://inosmi.ru/" 5 =
      .ok { url := "https://inosmi.ru/", title := some "Timeout Error",
            status := some "TIMEOUT", score := none, words_count := none,
            exec_time := none } :=
  process_article_outer_timeout slowFetchRun [] "https://inosmi.ru/" 5
    (by decide)

/-- A run in which the wall clock passes the 5-unit deadline while the
sanitizer is being applied: the fetch ends at time 4 (< 5) and the
synchronous application runs until time 14. -/
def lateApplyRun : ArticleRun :=
  { fetchDuration := 4, fetchOutcome := .ok "<html>", applyDuration := 10,
    sanitizedText := "", sanitizedTitle := "Заголовок",
    tokenizeDuration := 1, tokens := [] }

/-- Claim C6 counterexample: the overall deadline (5) expires during
sanitizer application (4 < 5 ≤ 4 + 10), yet the run does not end in
TIMEOUT / "Timeout Error": the `async with timeout` block was already
exited, so the pipeline proceeds and ends OK. -/
theorem sanitize_apply_not_covered_by_deadline :
    4 < 5 ∧ 5 ≤ 4 + 10 ∧
    process_article lateApplyRun [] "https://inosmi.ru/x" 5 =
      .ok { url := "https://inosmi.ru/x", title := some "Заголовок",
            status := some "OK", score := some 0, words_count := some 0,
            exec_time := some 1 } :=
  ⟨by decide, by decide, rfl⟩

/-- Claim C7: `get_sanitizer` derives the site key from the URL's host by
joining its '.'-separated labels with '_'; a registered key returns its
capability, an unregistered one raises `ArticleNotFound` whose message
carries the offending host name. -/
theorem get_sanitizer_key_lookup (url : String) :
    (∀ s, sanitizersGet ((intercalateChar '_'
        (splitOnChar '.' (netloc url).toList)).asString) = some s →
      get_sanitizer url = .ok s) ∧
    (sanitizersGet ((intercalateChar '_'
        (splitOnChar '.' (netloc url).toList)).asString) = none →
      get_sanitizer url =
        .error (.articleNotFound ("Статья на " ++ netloc url))) := by
  constructor
  · intro s hs
    simp only [get_sanitizer, hs]
  · intro hn
    simp only [get_sanitizer, hn]

/-- Witness for claim C7: a registered host resolves, an unregistered one
raises with the host in the message. -/
theorem get_sanitizer_key_lookup_witness :
    get_sanitizer "https://inosmi.ru/social/20191004/245951541.html" =
      .ok SanitizerId.inosmi_ru ∧
    get_sanitizer "https://lenta.ru/news/2019/10/15/real/" =
      .error (.articleNotFound ("Статья на " ++
        netloc "https://lenta.ru/news/2019/10/15/real/")) :=
  ⟨(get_sanitizer_key_lookup
      "https://inosmi.ru/social/20191004/245951541.html").1
      SanitizerId.inosmi_ru rfl,
    (get_sanitizer_key_lookup "https://lenta.ru/news/2019/10/15/real/").2 rfl⟩

/-- Claim C8 (the scorer is modelled from the spec, src lacking
text_tools.py): calculate_jaundice_rate equals 100 × (count of article
words belonging to the charged set) / max(1, number of article words), and
is exactly 0 on the empty word list for any charged set. -/
theorem calculate_jaundice_rate_formula :
    (∀ article_words charged_words : List String,
      calculate_jaundice_rate article_words charged_words =
        100 * (article_words.countP
            (fun w => charged_words.contains w) : ℚ) /
          ((max 1 article_words.length : Nat) : ℚ)) ∧
    (∀ charged_words : List String,
      calculate_jaundice_rate [] charged_words = 0) := by
  constructor
  · intro aw cw
    rcases aw with _ | ⟨a, t⟩
    · simp [calculate_jaundice_rate]
    · have hm : max 1 (a :: t).length = (a :: t).length := by
        simp only [List.length_cons]
        omega
      simp [calculate_jaundice_rate, hm]
  · intro cw
    rfl

/-- The two data points of the repository's own
src/tests/test_text_tools.py::test_calculate_jaundice_rate, checked
against the modelled scorer. -/
theorem calculate_jaundice_rate_matches_repo_test :
    (-1/100 : ℚ) < calculate_jaundice_rate [] [] ∧
    calculate_jaundice_rate [] [] < 1/100 ∧
    (33 : ℚ) < calculate_jaundice_rate ["все", "аутсайдер", "побег"]
      ["аутсайдер", "банкротство"] ∧
    calculate_jaundice_rate ["все", "аутсайдер", "побег"]
      ["аутсайдер", "банкротство"] < 34 := by
  refine ⟨by norm_num [calculate_jaundice_rate], by norm_num [calculate_jaundice_rate], ?_, ?_⟩ <;>
    · simp +decide only [calculate_jaundice_rate, List.countP_cons,
        List.countP_nil, List.contains_cons]
      norm_num

/-- Claim C9: on the empty URL list the batch does not return an empty
collection — the nursery exits with no children and `asyncio.wait([])`
raises `ValueError`, whatever the world, charged words and completion
order are. -/
theorem get_articles_empty_raises (world : String → ArticleRun)
    (charged_words : List String) (order : List Nat) :
    get_articles_analysis_results world charged_words [] order =
      .error .valueError := rfl

/-- A successful fetch of a page from a host that extends a registered
domain with an extra label. -/
def wwwRun : ArticleRun := { trivialRun with fetchOutcome := .ok "<html>" }

/-- Claim C10: sanitizer lookup is an exact match on the full host:
'www.inosmi.ru' keys to 'www_inosmi_ru', which is not registered (only
'inosmi_ru' is), so the pipeline with a successful fetch ends in
PARSING_ERROR. -/
theorem www_host_not_registered :
    (intercalateChar '_' (splitOnChar '.'
        (netloc "https://www.inosmi.ru/social/20191004/245951541.html").toList)).asString =
      "www_inosmi_ru" ∧
    sanitizersGet "www_inosmi_ru" = none ∧
    sanitizersGet "inosmi_ru" = some SanitizerId.inosmi_ru ∧
    process_article wwwRun []
      "https://www.inosmi.ru/social/20191004/245951541.html" 5 =
      .ok { url := "https://www.inosmi.ru/social/20191004/245951541.html",
            title := some "Статья на www.inosmi.ru",
            status := some "PARSING_ERROR", score := none,
            words_count := none, exec_time := none } :=
  ⟨rfl, rfl, rfl, rfl⟩

/-- Claim C1 (amended): for every NONEMPTY list of N URLs whose per-URL
pipeline runs all return normally, the batch orchestrator returns exactly
N records whose multiset of `url` fields equals the multiset of input
URLs, regardless of the order in which the tasks complete; a failing or
timing-out URL (converted to a status record) removes no sibling record.
(For the empty list the orchestrator raises instead — see the
counterexample and claim C9.) -/
theorem batch_collects_all (world : String → ArticleRun)
    (charged_words : List String) (urls : List String) (order : List Nat)
    (hne : urls ≠ [])
    (hok : ∀ u ∈ urls,
      ∃ info, process_article (world u) charged_words u 5 = .ok info)
    (hperm : order.Perm (List.range urls.length)) :
    ∃ results,
      get_articles_analysis_results world charged_words urls order =
        .ok results ∧
      results.length = urls.length ∧
      (results.map (fun r => r.url)).Perm urls := by
  have herr := taskErrors_eq_nil world charged_words urls hok
  have hmap := okInfos_map_url world charged_words urls hok
  have hlen :
      ((taskResults world charged_words urls).filterMap
        Except.toOption).length = urls.length := by
    have hh := congrArg List.length hmap
    simpa using hh
  refine ⟨order.map (fun i =>
      ((taskResults world charged_words urls).filterMap
        Except.toOption).getD i blankInfo), ?_, ?_, ?_⟩
  · have hie : urls.isEmpty = false := by
      cases urls
      · exact absurd rfl hne
      · rfl
    simp [get_articles_analysis_results, herr, hie]
  · rw [List.length_map, hperm.length_eq, List.length_range]
  · have hp := order_map_getD_perm blankInfo
      ((taskResults world charged_words urls).filterMap Except.toOption)
      order (by rw [hlen]; exact hperm)
    have hq := hp.map (fun r => r.url)
    rw [hmap] at hq
    exact hq

/-- Witness for claim C1's amended theorem: two URLs, completion order
reversed. -/
theorem batch_collects_all_witness :
    ∃ results,
      get_articles_analysis_results trivialWorld []
        ["https://a.ru", "https://b.ru"] [1, 0] = .ok results ∧
      results.length = (["https://a.ru", "https://b.ru"] : List String).length ∧
      (results.map (fun r => r.url)).Perm ["https://a.ru", "https://b.ru"] :=
  batch_collects_all trivialWorld [] ["https://a.ru", "https://b.ru"] [1, 0]
    (by decide)
    (by
      intro u hu
      simp only [List.mem_cons, List.not_mem_nil, or_false] at hu
      rcases hu with rfl | rfl
      · exact ⟨_, rfl⟩
      · exact ⟨_, rfl⟩)
    (by decide)

/-- Claim C1 counterexample: for the EMPTY URL list every per-URL run
returns normally (vacuously), yet the orchestrator returns no collection
of 0 records — it raises the `ValueError` of `asyncio.wait` on an empty
task set. -/
theorem batch_empty_no_results :
    get_articles_analysis_results trivialWorld [] [] [] =
      .error .valueError ∧
    get_articles_analysis_results trivialWorld [] [] [] ≠ .ok [] :=
  ⟨rfl, fun h => Except.noConfusion h⟩

/-- Claim C2: if a spawned pipeline raises an exception that
`process_article` did not convert to a status, the batch call returns no
result collection at all (no partial sibling results); when that exception
is the only one, `create_handy_nursery` unwraps the `MultiError` and the
batch raises exactly it. -/
theorem batch_fail_fast (world : String → ArticleRun)
    (charged_words : List String) (urls : List String) (order : List Nat)
    (u : String) (e : Exc) (hu : u ∈ urls)
    (he : process_article (world u) charged_words u 5 = .error e) :
    (∀ results,
      get_articles_analysis_results world charged_words urls order ≠
        .ok results) ∧
    (taskErrors world charged_words urls = [e] →
      get_articles_analysis_results world charged_words urls order =
        .error (.single e)) := by
  have hmem : e ∈ taskErrors world charged_words urls := by
    simp only [taskErrors, taskResults, List.mem_filterMap, List.mem_map]
    exact ⟨.error e, ⟨u, hu, he⟩, rfl⟩
  constructor
  · intro results hres
    rcases hE : taskErrors world charged_words urls with _ | ⟨x, xs⟩
    · rw [hE] at hmem
      exact absurd hmem (List.not_mem_nil e)
    · unfold get_articles_analysis_results at hres
      rw [hE] at hres
      cases xs with
      | nil => exact Except.noConfusion hres
      | cons y rest => exact Except.noConfusion hres
  · intro hE
    unfold get_articles_analysis_results
    rw [hE]

/-- A world whose fetch raises an unmodeled exception. -/
def boomWorld : String → ArticleRun := fun _ =>
  { trivialRun with fetchOutcome := .error (.other "boom") }

/-- Witness for claim C2 at a one-URL batch whose task raises an unmodeled
exception. -/
theorem batch_fail_fast_witness :
    (∀ results,
      get_articles_analysis_results boomWorld [] ["https://a.ru"] [0] ≠
        .ok results) ∧
    get_articles_analysis_results boomWorld [] ["https://a.ru"] [0] =
      .error (.single (.other "boom")) := by
  have h := batch_fail_fast boomWorld [] ["https://a.ru"] [0] "https://a.ru"
    (.other "boom") (List.mem_singleton.mpr rfl) rfl
  exact ⟨h.1, h.2 rfl⟩
